import Mathlib

/-!
Shallow embedding of `src/main.py`, a FastAPI device-licensing server
backed by a sqlite table `devices` with primary key `(company_key, device_id)`.

The store is modelled as a list of rows; SQL statements become list
operations:
  * `SELECT ... WHERE key fetchone`  → `List.find?` on the key predicate;
  * `INSERT OR REPLACE`              → drop rows with the key, append the new row;
  * `UPDATE ... WHERE key`           → map the update over rows with the key;
  * `ORDER BY updated_at DESC`       → insertion sort by `updated_at`, descending.
Nullable TEXT columns are `Option String`; timestamps (`int(time.time())`)
are `Nat`.
-/

namespace LmServer

/-- A row of the `devices` table (`init_db`, src/main.py lines 37-50).
`hostname`, `pc_name`, `requester_name`, `establishment` are nullable TEXT,
`status` is TEXT NOT NULL, timestamps are INTEGER. -/
structure DeviceRow where
  company_key : String
  device_id : String
  hostname : Option String
  pc_name : Option String
  requester_name : Option String
  establishment : Option String
  status : String
  created_at : Nat
  updated_at : Nat
  deriving Repr, DecidableEq

/-- The `devices` table: a list of rows.  The schema's primary key makes at
most one row per `(company_key, device_id)` reachable; theorems carry that
as an explicit hypothesis where they need it. -/
abbrev Store := List DeviceRow

/-- Row predicate for `WHERE company_key=? AND device_id=?`. -/
def keyMatches (ck di : String) (r : DeviceRow) : Bool :=
  r.company_key == ck && r.device_id == di

/-- Lookup for `SELECT ... WHERE company_key=? AND device_id=?` followed by `fetchone`. -/
def findRow (ck di : String) (store : Store) : Option DeviceRow :=
  store.find? (keyMatches ck di)

/-- Number of rows with the given key. -/
def countKey (ck di : String) (store : Store) : Nat :=
  (store.filter (keyMatches ck di)).length

/-- Effect of `INSERT OR REPLACE`: any row with the same primary key is replaced;
sqlite appends the fresh row. -/
def insertOrReplace (row : DeviceRow) (store : Store) : Store :=
  store.filter (fun r => !(keyMatches row.company_key row.device_id r)) ++ [row]

/-- The body of the `/api/check` request (`CheckPayload`, src/main.py
lines 70-80): `company_key` and `device_id` are required, the rest optional
with default `None`. -/
structure CheckPayload where
  company_key : String
  device_id : String
  hostname : Option String := none
  pc_name : Option String := none
  requester_name : Option String := none
  establishment : Option String := none
  ts : Option Int := none
  deriving Repr, DecidableEq

/-- The JSON body FastAPI receives for `/api/check`, before pydantic
validation: each field may be absent. -/
structure RawCheckBody where
  company_key : Option String
  device_id : Option String
  hostname : Option String := none
  pc_name : Option String := none
  requester_name : Option String := none
  establishment : Option String := none
  ts : Option Int := none
  deriving Repr, DecidableEq

/-- Pydantic validation error (FastAPI answers 422). -/
inductive ValidationError where
  | missingField
  deriving Repr, DecidableEq

/-- Pydantic validation of `CheckPayload`: `company_key : str` and
`device_id : str` must be present; any string, including the empty one, is
accepted — the model declares no constraint and performs no trimming
(src/main.py lines 70-80). -/
def parseCheckPayload (b : RawCheckBody) : Except ValidationError CheckPayload :=
  match b.company_key, b.device_id with
  | some ck, some di =>
      .ok { company_key := ck, device_id := di, hostname := b.hostname,
            pc_name := b.pc_name, requester_name := b.requester_name,
            establishment := b.establishment, ts := b.ts }
  | _, _ => .error .missingField

/-- Value of `COALESCE(NULLIF(stored, ''), incoming)`: keep the stored value unless
it is NULL or the empty string, in which case take the incoming one. -/
def coalesceNullif (stored incoming : Option String) : Option String :=
  match stored with
  | none => incoming
  | some s => if s == "" then incoming else some s

/-- The JSON verdict `/api/check` returns: `{"authorized": ...}` plus
optional `status` and `message` keys. -/
structure Verdict where
  authorized : Bool
  status : Option String
  message : Option String
  deriving Repr, DecidableEq

/-- The message string `src/main.py` sends with unauthorized verdicts. -/
def waitMsg : String := "Aguardando autorização do administrador"

/-- The row inserted on first sighting: metadata from the payload verbatim,
`status="PENDING"`, both timestamps `now` (src/main.py lines 124-141). -/
def freshRow (p : CheckPayload) (now : Nat) : DeviceRow :=
  { company_key := p.company_key, device_id := p.device_id,
    hostname := p.hostname, pc_name := p.pc_name,
    requester_name := p.requester_name, establishment := p.establishment,
    status := "PENDING", created_at := now, updated_at := now }

/-- The metadata-merge UPDATE run on an existing row (src/main.py
lines 153-172): each text field goes through `COALESCE(NULLIF(old, ''), new)`
and `updated_at` is set to now; `status` and `created_at` are not touched. -/
def mergeRow (p : CheckPayload) (now : Nat) (r : DeviceRow) : DeviceRow :=
  { r with
    hostname := coalesceNullif r.hostname p.hostname,
    pc_name := coalesceNullif r.pc_name p.pc_name,
    requester_name := coalesceNullif r.requester_name p.requester_name,
    establishment := coalesceNullif r.establishment p.establishment,
    updated_at := now }

/-- Endpoint `POST /api/check` (`api_check`, src/main.py lines 105-182).  Looks the
device up by key; if absent, inserts it as PENDING and answers
`authorized=false, status=PENDING`; if present, runs the metadata-merge
UPDATE on the row, then answers `{"authorized": true}` when the stored
status is exactly "AUTHORIZED" and `authorized=false` echoing the stored
status otherwise. -/
def api_check (p : CheckPayload) (now : Nat) (store : Store) :
    Verdict × Store :=
  match findRow p.company_key p.device_id store with
  | none =>
      ({ authorized := false, status := some "PENDING", message := some waitMsg },
       insertOrReplace (freshRow p now) store)
  | some r =>
      let store' := store.map (fun row =>
        if keyMatches p.company_key p.device_id row then mergeRow p now row else row)
      if r.status == "AUTHORIZED" then
        ({ authorized := true, status := none, message := none }, store')
      else
        ({ authorized := false, status := some r.status, message := some waitMsg },
         store')

/-- Errors the admin endpoints raise (`HTTPException`). -/
inductive HTTPError where
  | unauthorized
  | notFound
  deriving Repr, DecidableEq

/-- HTTP status code of each admin error. -/
def HTTPError.code : HTTPError → Nat
  | .unauthorized => 401
  | .notFound => 404

/-- Gate `require_admin` (src/main.py lines 89-91): rejects when the configured
`ADMIN_TOKEN` is falsy (empty string) or the `X-Admin-Token` header does
not equal it; a missing header is `none` and never equals `some cfg`. -/
def require_admin (cfg : String) (tok : Option String) : Bool :=
  !(cfg == "" || tok != some cfg)

/-- Body of the admin device actions (`AdminDeviceAction`). -/
structure AdminDeviceAction where
  company_key : String
  device_id : String
  deriving Repr, DecidableEq

/-- The UPDATE both admin actions share: set `status` and `updated_at` on
every row with the key. -/
def setStatusRows (ck di newStatus : String) (now : Nat) (store : Store) : Store :=
  store.map (fun r =>
    if keyMatches ck di r then { r with status := newStatus, updated_at := now } else r)

/-- Common shape of `POST /admin/device/authorize` and `revoke`
(src/main.py lines 221-261): admin gate first, then
`UPDATE devices SET status=?, updated_at=? WHERE key`; `rowcount == 0`
raises 404 before the commit, so on any error the store is unchanged. -/
def admin_set_status (newStatus : String) (cfg : String) (tok : Option String)
    (p : AdminDeviceAction) (now : Nat) (store : Store) :
    Except HTTPError Unit × Store :=
  if !(require_admin cfg tok) then (.error .unauthorized, store)
  else if countKey p.company_key p.device_id store == 0 then
    (.error .notFound, store)
  else
    (.ok (), setStatusRows p.company_key p.device_id newStatus now store)

/-- Endpoint `POST /admin/device/authorize` (src/main.py lines 221-240). -/
def admin_authorize (cfg : String) (tok : Option String)
    (p : AdminDeviceAction) (now : Nat) (store : Store) :
    Except HTTPError Unit × Store :=
  admin_set_status "AUTHORIZED" cfg tok p now store

/-- Endpoint `POST /admin/device/revoke` (src/main.py lines 242-261). -/
def admin_revoke (cfg : String) (tok : Option String)
    (p : AdminDeviceAction) (now : Nat) (store : Store) :
    Except HTTPError Unit × Store :=
  admin_set_status "REVOKED" cfg tok p now store

/-- Insert a row into a list kept in descending `updated_at` order. -/
def insertDesc (r : DeviceRow) : List DeviceRow → List DeviceRow
  | [] => [r]
  | s :: rest =>
      if s.updated_at ≤ r.updated_at then r :: s :: rest
      else s :: insertDesc r rest

/-- Sorting for `ORDER BY updated_at DESC`, as insertion sort. -/
def sortByUpdatedDesc : List DeviceRow → List DeviceRow
  | [] => []
  | r :: rest => insertDesc r (sortByUpdatedDesc rest)

/-- Endpoint `GET /admin/devices` (`admin_list_devices`, src/main.py lines 187-219):
admin gate, then all rows of the company ordered by `updated_at`
descending. -/
def admin_list_devices (cfg : String) (tok : Option String)
    (ck : String) (store : Store) : Except HTTPError (List DeviceRow) :=
  if !(require_admin cfg tok) then .error .unauthorized
  else .ok (sortByUpdatedDesc (store.filter (fun r => r.company_key == ck)))

/-- A sequence of check-in calls, each with its own payload and timestamp,
threaded through the store. -/
def runChecks : List (CheckPayload × Nat) → Store → Store
  | [], store => store
  | q :: rest, store => runChecks rest (api_check q.1 q.2 store).2

end LmServer

namespace LmServer

/-! ### Helper lemmas about the store operations -/

/-- A key-preserving conditional update commutes with the key lookup. -/
theorem findRow_map_cond (ck di : String) (g : DeviceRow → DeviceRow)
    (hg : ∀ r, keyMatches ck di (g r) = keyMatches ck di r) :
    ∀ store : Store,
      findRow ck di (store.map (fun row => if keyMatches ck di row then g row else row)) =
        (findRow ck di store).map g
  | [] => rfl
  | r :: rest => by
      have ih := findRow_map_cond ck di g hg rest
      simp only [findRow] at ih ⊢
      by_cases hk : keyMatches ck di r = true
      · rw [List.map_cons, if_pos hk,
          List.find?_cons_of_pos _ (by rw [hg r]; exact hk),
          List.find?_cons_of_pos _ hk, Option.map_some']
      · rw [List.map_cons, if_neg hk,
          List.find?_cons_of_neg _ hk, List.find?_cons_of_neg _ hk, ih]

/-- A key-preserving conditional update keeps the number of rows with the
key unchanged. -/
theorem countKey_map_cond (ck di : String) (g : DeviceRow → DeviceRow)
    (hg : ∀ r, keyMatches ck di (g r) = keyMatches ck di r) :
    ∀ store : Store,
      countKey ck di (store.map (fun row => if keyMatches ck di row then g row else row)) =
        countKey ck di store
  | [] => rfl
  | r :: rest => by
      have ih := countKey_map_cond ck di g hg rest
      by_cases hk : keyMatches ck di r
      · simp [countKey, List.filter, hk, hg r] at *
        omega
      · simp [countKey, List.filter, hk] at *
        exact ih

/-- The key lookup fails exactly when no row with the key is present. -/
theorem findRow_eq_none_iff_countKey (ck di : String) (store : Store) :
    findRow ck di store = none ↔ countKey ck di store = 0 := by
  simp [findRow, countKey, List.find?_eq_none, List.length_eq_zero,
    List.filter_eq_nil_iff]

/-- After an INSERT OR REPLACE of a row, exactly one row with its key is
present, whatever the store held before. -/
theorem countKey_insertOrReplace (row : DeviceRow) (store : Store) :
    countKey row.company_key row.device_id (insertOrReplace row store) = 1 := by
  have hrow : keyMatches row.company_key row.device_id row = true := by
    simp [keyMatches]
  simp [countKey, insertOrReplace, List.filter_append, List.filter_filter, hrow]

/-- After an INSERT OR REPLACE, the key lookup returns the inserted row. -/
theorem findRow_insertOrReplace (row : DeviceRow) (store : Store) :
    findRow row.company_key row.device_id (insertOrReplace row store) = some row := by
  have hrow : keyMatches row.company_key row.device_id row = true := by
    simp [keyMatches]
  have hnone :
      (store.filter (fun r => !(keyMatches row.company_key row.device_id r))).find?
        (keyMatches row.company_key row.device_id) = none := by
    rw [List.find?_eq_none]
    intro x hx
    have := List.of_mem_filter hx
    simp at this
    simp [this]
  simp [findRow, insertOrReplace, List.find?_append, hnone, List.find?, hrow]

/-- The fresh row of a first check-in carries the payload's key. -/
theorem freshRow_key (p : CheckPayload) (now : Nat) :
    (freshRow p now).company_key = p.company_key ∧
    (freshRow p now).device_id = p.device_id := ⟨rfl, rfl⟩

/-- Merging metadata or setting a status never changes a row's key. -/
theorem mergeRow_keyMatches (ck di : String) (p : CheckPayload) (now : Nat)
    (r : DeviceRow) : keyMatches ck di (mergeRow p now r) = keyMatches ck di r := rfl

/-- A successful key lookup means the key count is nonzero. -/
theorem countKey_ne_zero_of_findRow (ck di : String) (store : Store) (r : DeviceRow)
    (h : findRow ck di store = some r) : countKey ck di store ≠ 0 := by
  intro h0
  have hn := (findRow_eq_none_iff_countKey ck di store).mpr h0
  rw [hn] at h
  exact Option.noConfusion h

/-- Descending order on the `updated_at` column. -/
abbrev descUpdated (a b : DeviceRow) : Prop := b.updated_at ≤ a.updated_at

/-- Inserting into the sorted list keeps the same rows, up to order. -/
theorem insertDesc_perm (r : DeviceRow) :
    ∀ l : List DeviceRow, (insertDesc r l).Perm (r :: l)
  | [] => List.Perm.refl _
  | s :: rest => by
      simp only [insertDesc]
      by_cases h : s.updated_at ≤ r.updated_at
      · rw [if_pos h]
      · rw [if_neg h]
        exact ((insertDesc_perm r rest).cons s).trans (List.Perm.swap r s rest)

/-- Sorting keeps the same rows, up to order. -/
theorem sortByUpdatedDesc_perm : ∀ l : List DeviceRow, (sortByUpdatedDesc l).Perm l
  | [] => List.Perm.refl _
  | r :: rest =>
      (insertDesc_perm r (sortByUpdatedDesc rest)).trans
        ((sortByUpdatedDesc_perm rest).cons r)

/-- Inserting into a descending-sorted list keeps it descending. -/
theorem insertDesc_pairwise (r : DeviceRow) :
    ∀ l : List DeviceRow, l.Pairwise descUpdated →
      (insertDesc r l).Pairwise descUpdated
  | [], _ => by simp [insertDesc]
  | s :: rest, h => by
      rcases List.pairwise_cons.mp h with ⟨hs, hrest⟩
      simp only [insertDesc]
      by_cases hc : s.updated_at ≤ r.updated_at
      · rw [if_pos hc]
        refine List.pairwise_cons.mpr ⟨?_, h⟩
        intro x hx
        rcases List.mem_cons.mp hx with rfl | hx2
        · exact hc
        · exact le_trans (hs x hx2) hc
      · rw [if_neg hc]
        refine List.pairwise_cons.mpr ⟨?_, insertDesc_pairwise r rest hrest⟩
        intro x hx
        rcases List.mem_cons.mp ((insertDesc_perm r rest).mem_iff.mp hx) with rfl | hx2
        · exact le_of_not_le hc
        · exact hs x hx2

/-- The output of the sort is descending in `updated_at`. -/
theorem sortByUpdatedDesc_pairwise :
    ∀ l : List DeviceRow, (sortByUpdatedDesc l).Pairwise descUpdated
  | [] => List.Pairwise.nil
  | r :: rest => insertDesc_pairwise r _ (sortByUpdatedDesc_pairwise rest)

/-- A conditional per-key update never touches the `status` column of the
check-in UPDATE: the list of statuses is unchanged. -/
theorem statuses_map_merge (p : CheckPayload) (now : Nat) (store : Store) :
    (store.map (fun row =>
        if keyMatches p.company_key p.device_id row then mergeRow p now row
        else row)).map DeviceRow.status = store.map DeviceRow.status := by
  rw [List.map_map]
  refine List.map_congr_left ?_
  intro row _
  by_cases hk : keyMatches p.company_key p.device_id row
  · simp [hk, mergeRow]
  · simp [hk]

/-- The SQL COALESCE-NULLIF merge, phrased as the fill-if-empty policy. -/
theorem coalesceNullif_eq_ite (stored incoming : Option String) :
    coalesceNullif stored incoming =
      if stored = none ∨ stored = some "" then incoming else stored := by
  cases stored with
  | none => simp [coalesceNullif]
  | some s =>
      by_cases hs : s = ""
      · simp [coalesceNullif, hs]
      · simp [coalesceNullif, hs]

/-- On an existing row, the check-in's store effect is exactly the
metadata-merge UPDATE over the rows with the key. -/
theorem api_check_store_of_found (p : CheckPayload) (now : Nat) (store : Store)
    (r : DeviceRow) (h : findRow p.company_key p.device_id store = some r) :
    (api_check p now store).2 = store.map (fun row =>
      if keyMatches p.company_key p.device_id row then mergeRow p now row else row) := by
  simp only [api_check, h]
  split <;> rfl

/-- On an existing row, the verdict of a check-in is determined by the
stored status alone. -/
theorem api_check_verdict_of_found (p : CheckPayload) (now : Nat) (store : Store)
    (r : DeviceRow) (h : findRow p.company_key p.device_id store = some r) :
    (api_check p now store).1 =
      if r.status == "AUTHORIZED" then
        { authorized := true, status := none, message := none }
      else
        { authorized := false, status := some r.status, message := some waitMsg } := by
  by_cases hs : r.status == "AUTHORIZED"
  · simp [api_check, h, hs]
  · simp only [api_check, h]
    simp [hs]

/-- The per-key lookup after the shared admin UPDATE. -/
theorem findRow_setStatusRows (ck di ns : String) (now : Nat) (store : Store) :
    findRow ck di (setStatusRows ck di ns now store) =
      (findRow ck di store).map
        (fun r => { r with status := ns, updated_at := now }) :=
  findRow_map_cond ck di (fun r => { r with status := ns, updated_at := now })
    (fun _ => rfl) store

/-- When the admin gate passes and a row with the key exists, the shared
admin action succeeds and performs exactly the status UPDATE. -/
theorem admin_set_status_ok (ns cfg : String) (tok : Option String)
    (a : AdminDeviceAction) (now : Nat) (store : Store)
    (hadm : require_admin cfg tok = true)
    (hcnt : countKey a.company_key a.device_id store ≠ 0) :
    admin_set_status ns cfg tok a now store =
      (.ok (), setStatusRows a.company_key a.device_id ns now store) := by
  simp [admin_set_status, hadm, hcnt]

/-! ### Claim theorems -/

/-- C1: a check-in for a (company_key, device_id) pair with no existing
device row answers authorized=false with status "PENDING", and afterwards
exactly one row with that key exists, and it has status "PENDING". -/
theorem C1_first_checkin_creates_pending (p : CheckPayload) (now : Nat) (store : Store)
    (h : findRow p.company_key p.device_id store = none) :
    (api_check p now store).1.authorized = false ∧
    (api_check p now store).1.status = some "PENDING" ∧
    countKey p.company_key p.device_id (api_check p now store).2 = 1 ∧
    Option.map DeviceRow.status
      (findRow p.company_key p.device_id (api_check p now store).2) = some "PENDING" := by
  have hres : api_check p now store =
      ({ authorized := false, status := some "PENDING", message := some waitMsg },
       insertOrReplace (freshRow p now) store) := by
    simp [api_check, h]
  rw [hres]
  refine ⟨rfl, rfl, ?_, ?_⟩
  · exact countKey_insertOrReplace (freshRow p now) store
  · have h2 : findRow p.company_key p.device_id (insertOrReplace (freshRow p now) store) =
        some (freshRow p now) := findRow_insertOrReplace (freshRow p now) store
    rw [h2]
    rfl

/-- Witness for C1 at a concrete fresh key. -/
theorem C1_first_checkin_creates_pending_witness :
    findRow "c1" "d1" ([] : Store) = none ∧
    ((api_check { company_key := "c1", device_id := "d1" } 7 []).1.authorized = false ∧
     (api_check { company_key := "c1", device_id := "d1" } 7 []).1.status = some "PENDING" ∧
     countKey "c1" "d1" (api_check { company_key := "c1", device_id := "d1" } 7 []).2 = 1 ∧
     Option.map DeviceRow.status
       (findRow "c1" "d1" (api_check { company_key := "c1", device_id := "d1" } 7 []).2) =
         some "PENDING") :=
  ⟨rfl, C1_first_checkin_creates_pending { company_key := "c1", device_id := "d1" } 7 [] rfl⟩

/-- C10: on an existing row the verdict is authorized exactly when the
stored status string equals "AUTHORIZED"; any other stored status — also an
unexpected one — yields authorized=false echoing that stored status. -/
theorem C10_grant_iff_authorized_string (p : CheckPayload) (now : Nat) (store : Store)
    (r : DeviceRow) (h : findRow p.company_key p.device_id store = some r) :
    (api_check p now store).1.authorized = (r.status == "AUTHORIZED") ∧
    (api_check p now store).1 =
      if r.status == "AUTHORIZED" then
        { authorized := true, status := none, message := none }
      else
        { authorized := false, status := some r.status, message := some waitMsg } := by
  by_cases hs : r.status == "AUTHORIZED"
  · constructor
    · simp [api_check, h, hs]
    · simp [api_check, h, hs]
  · constructor
    · simp only [api_check, h]
      simp [hs]
    · simp only [api_check, h]
      simp [hs]

/-- Witness for C10 at a corrupted stored status. -/
theorem C10_grant_iff_authorized_string_witness :
    findRow "c" "d"
      [⟨"c", "d", none, none, none, none, "CORRUPTED", 1, 1⟩] =
        some ⟨"c", "d", none, none, none, none, "CORRUPTED", 1, 1⟩ ∧
    ((api_check { company_key := "c", device_id := "d" } 9
        [⟨"c", "d", none, none, none, none, "CORRUPTED", 1, 1⟩]).1.authorized =
      ((DeviceRow.mk "c" "d" none none none none "CORRUPTED" 1 1).status == "AUTHORIZED") ∧
     (api_check { company_key := "c", device_id := "d" } 9
        [⟨"c", "d", none, none, none, none, "CORRUPTED", 1, 1⟩]).1 =
      if (DeviceRow.mk "c" "d" none none none none "CORRUPTED" 1 1).status == "AUTHORIZED" then
        { authorized := true, status := none, message := none }
      else
        { authorized := false,
          status := some (DeviceRow.mk "c" "d" none none none none "CORRUPTED" 1 1).status,
          message := some waitMsg }) :=
  ⟨by decide,
   C10_grant_iff_authorized_string { company_key := "c", device_id := "d" } 9
     [⟨"c", "d", none, none, none, none, "CORRUPTED", 1, 1⟩]
     ⟨"c", "d", none, none, none, none, "CORRUPTED", 1, 1⟩ (by decide)⟩

/-- C4: a check-in on an existing row changes no status field anywhere in
the store: the column of statuses is unchanged. -/
theorem C4_checkin_never_changes_status (p : CheckPayload) (now : Nat) (store : Store)
    (r : DeviceRow) (h : findRow p.company_key p.device_id store = some r) :
    ((api_check p now store).2).map DeviceRow.status = store.map DeviceRow.status := by
  rw [api_check_store_of_found p now store r h]
  exact statuses_map_merge p now store

/-- Witness for C4 on a one-row store. -/
theorem C4_checkin_never_changes_status_witness :
    findRow "c4" "d4"
      [⟨"c4", "d4", none, none, none, none, "REVOKED", 1, 1⟩] =
        some ⟨"c4", "d4", none, none, none, none, "REVOKED", 1, 1⟩ ∧
    ((api_check { company_key := "c4", device_id := "d4", hostname := some "h" } 9
        [⟨"c4", "d4", none, none, none, none, "REVOKED", 1, 1⟩]).2).map DeviceRow.status =
      [⟨"c4", "d4", none, none, none, none, "REVOKED", 1, 1⟩].map DeviceRow.status :=
  ⟨by decide,
   C4_checkin_never_changes_status
     { company_key := "c4", device_id := "d4", hostname := some "h" } 9
     [⟨"c4", "d4", none, none, none, none, "REVOKED", 1, 1⟩]
     ⟨"c4", "d4", none, none, none, none, "REVOKED", 1, 1⟩ (by decide)⟩

/-- C3: a check-in on an existing row leaves the row in place with each
metadata field taken from the incoming payload exactly when the stored
value is NULL or the empty string, and untouched otherwise (so a non-empty
stored value survives both blank and different non-empty incoming values),
while updated_at is always refreshed to now. -/
theorem C3_metadata_fill_if_empty (p : CheckPayload) (now : Nat) (store : Store)
    (r : DeviceRow) (h : findRow p.company_key p.device_id store = some r) :
    findRow p.company_key p.device_id (api_check p now store).2 =
      some (mergeRow p now r) ∧
    (mergeRow p now r).updated_at = now ∧
    (mergeRow p now r).hostname =
      (if r.hostname = none ∨ r.hostname = some "" then p.hostname else r.hostname) ∧
    (mergeRow p now r).pc_name =
      (if r.pc_name = none ∨ r.pc_name = some "" then p.pc_name else r.pc_name) ∧
    (mergeRow p now r).requester_name =
      (if r.requester_name = none ∨ r.requester_name = some "" then p.requester_name
       else r.requester_name) ∧
    (mergeRow p now r).establishment =
      (if r.establishment = none ∨ r.establishment = some "" then p.establishment
       else r.establishment) := by
  refine ⟨?_, rfl, ?_, ?_, ?_, ?_⟩
  · rw [api_check_store_of_found p now store r h,
      findRow_map_cond p.company_key p.device_id (mergeRow p now)
        (mergeRow_keyMatches p.company_key p.device_id p now) store, h]
    rfl
  · exact coalesceNullif_eq_ite r.hostname p.hostname
  · exact coalesceNullif_eq_ite r.pc_name p.pc_name
  · exact coalesceNullif_eq_ite r.requester_name p.requester_name
  · exact coalesceNullif_eq_ite r.establishment p.establishment

/-- Witness for C3: stored hostname "PC-7" survives an incoming "PC-9",
stored empty pc_name is filled, and updated_at advances. -/
theorem C3_metadata_fill_if_empty_witness :
    findRow "c3" "d3"
      [⟨"c3", "d3", some "PC-7", some "", none, none, "PENDING", 1, 1⟩] =
        some ⟨"c3", "d3", some "PC-7", some "", none, none, "PENDING", 1, 1⟩ ∧
    (findRow "c3" "d3"
      (api_check
        { company_key := "c3", device_id := "d3", hostname := some "PC-9",
          pc_name := some "K", requester_name := some "R" } 9
        [⟨"c3", "d3", some "PC-7", some "", none, none, "PENDING", 1, 1⟩]).2 =
      some (mergeRow
        { company_key := "c3", device_id := "d3", hostname := some "PC-9",
          pc_name := some "K", requester_name := some "R" } 9
        ⟨"c3", "d3", some "PC-7", some "", none, none, "PENDING", 1, 1⟩) ∧
     (mergeRow
        { company_key := "c3", device_id := "d3", hostname := some "PC-9",
          pc_name := some "K", requester_name := some "R" } 9
        ⟨"c3", "d3", some "PC-7", some "", none, none, "PENDING", 1, 1⟩).updated_at = 9 ∧
     (mergeRow
        { company_key := "c3", device_id := "d3", hostname := some "PC-9",
          pc_name := some "K", requester_name := some "R" } 9
        ⟨"c3", "d3", some "PC-7", some "", none, none, "PENDING", 1, 1⟩).hostname =
      (if (some "PC-7" : Option String) = none ∨ (some "PC-7" : Option String) = some ""
       then some "PC-9" else some "PC-7") ∧
     (mergeRow
        { company_key := "c3", device_id := "d3", hostname := some "PC-9",
          pc_name := some "K", requester_name := some "R" } 9
        ⟨"c3", "d3", some "PC-7", some "", none, none, "PENDING", 1, 1⟩).pc_name =
      (if (some "" : Option String) = none ∨ (some "" : Option String) = some ""
       then some "K" else some "") ∧
     (mergeRow
        { company_key := "c3", device_id := "d3", hostname := some "PC-9",
          pc_name := some "K", requester_name := some "R" } 9
        ⟨"c3", "d3", some "PC-7", some "", none, none, "PENDING", 1, 1⟩).requester_name =
      (if (none : Option String) = none ∨ (none : Option String) = some ""
       then some "R" else none) ∧
     (mergeRow
        { company_key := "c3", device_id := "d3", hostname := some "PC-9",
          pc_name := some "K", requester_name := some "R" } 9
        ⟨"c3", "d3", some "PC-7", some "", none, none, "PENDING", 1, 1⟩).establishment =
      (if (none : Option String) = none ∨ (none : Option String) = some ""
       then none else none)) :=
  ⟨by decide,
   C3_metadata_fill_if_empty
     { company_key := "c3", device_id := "d3", hostname := some "PC-9",
       pc_name := some "K", requester_name := some "R" } 9
     [⟨"c3", "d3", some "PC-7", some "", none, none, "PENDING", 1, 1⟩]
     ⟨"c3", "d3", some "PC-7", some "", none, none, "PENDING", 1, 1⟩ (by decide)⟩

/-- C2: on an existing device row, an authenticated admin authorize makes
the next check-in for that key answer authorized=true; a subsequent
authenticated admin revoke makes the next check-in answer authorized=false
with status "REVOKED". -/
theorem C2_authorize_then_revoke (cfg : String) (tok : Option String)
    (p : CheckPayload) (n1 n2 n3 n4 : Nat) (store : Store) (r : DeviceRow)
    (hadm : require_admin cfg tok = true)
    (h : findRow p.company_key p.device_id store = some r) :
    (admin_authorize cfg tok ⟨p.company_key, p.device_id⟩ n1 store).1 = .ok () ∧
    (api_check p n2
      (admin_authorize cfg tok ⟨p.company_key, p.device_id⟩ n1 store).2).1.authorized =
        true ∧
    (admin_revoke cfg tok ⟨p.company_key, p.device_id⟩ n3
      (api_check p n2
        (admin_authorize cfg tok ⟨p.company_key, p.device_id⟩ n1 store).2).2).1 = .ok () ∧
    (api_check p n4
      (admin_revoke cfg tok ⟨p.company_key, p.device_id⟩ n3
        (api_check p n2
          (admin_authorize cfg tok ⟨p.company_key, p.device_id⟩ n1 store).2).2).2).1.authorized =
        false ∧
    (api_check p n4
      (admin_revoke cfg tok ⟨p.company_key, p.device_id⟩ n3
        (api_check p n2
          (admin_authorize cfg tok ⟨p.company_key, p.device_id⟩ n1 store).2).2).2).1.status =
      some "REVOKED" := by
  have hcnt : countKey p.company_key p.device_id store ≠ 0 :=
    countKey_ne_zero_of_findRow p.company_key p.device_id store r h
  have h1 : admin_authorize cfg tok ⟨p.company_key, p.device_id⟩ n1 store =
      (.ok (), setStatusRows p.company_key p.device_id "AUTHORIZED" n1 store) :=
    admin_set_status_ok "AUTHORIZED" cfg tok ⟨p.company_key, p.device_id⟩ n1 store hadm hcnt
  rw [h1]
  have hf1 : findRow p.company_key p.device_id
      (setStatusRows p.company_key p.device_id "AUTHORIZED" n1 store) =
      some { r with status := "AUTHORIZED", updated_at := n1 } := by
    rw [findRow_setStatusRows, h]
    rfl
  have hv1 := api_check_verdict_of_found p n2 _ _ hf1
  have hs1 := api_check_store_of_found p n2 _ _ hf1
  have hf2 : findRow p.company_key p.device_id
      ((api_check p n2
        (setStatusRows p.company_key p.device_id "AUTHORIZED" n1 store)).2) =
      some (mergeRow p n2 { r with status := "AUTHORIZED", updated_at := n1 }) := by
    rw [hs1, findRow_map_cond p.company_key p.device_id (mergeRow p n2)
      (mergeRow_keyMatches p.company_key p.device_id p n2), hf1]
    rfl
  have hcnt2 : countKey p.company_key p.device_id
      ((api_check p n2
        (setStatusRows p.company_key p.device_id "AUTHORIZED" n1 store)).2) ≠ 0 :=
    countKey_ne_zero_of_findRow _ _ _ _ hf2
  have h3 : admin_revoke cfg tok ⟨p.company_key, p.device_id⟩ n3
      ((api_check p n2
        (setStatusRows p.company_key p.device_id "AUTHORIZED" n1 store)).2) =
      (.ok (), setStatusRows p.company_key p.device_id "REVOKED" n3
        ((api_check p n2
          (setStatusRows p.company_key p.device_id "AUTHORIZED" n1 store)).2)) :=
    admin_set_status_ok "REVOKED" cfg tok ⟨p.company_key, p.device_id⟩ n3 _ hadm hcnt2
  rw [h3]
  have hf3 : findRow p.company_key p.device_id
      (setStatusRows p.company_key p.device_id "REVOKED" n3
        ((api_check p n2
          (setStatusRows p.company_key p.device_id "AUTHORIZED" n1 store)).2)) =
      some { mergeRow p n2 { r with status := "AUTHORIZED", updated_at := n1 } with
               status := "REVOKED", updated_at := n3 } := by
    rw [findRow_setStatusRows, hf2]
    rfl
  have hv3 := api_check_verdict_of_found p n4 _ _ hf3
  have hna : (("REVOKED" : String) == "AUTHORIZED") = false := by decide
  refine ⟨rfl, ?_, rfl, ?_, ?_⟩
  · rw [hv1]
    simp [mergeRow]
  · rw [hv3]
    simp only [hna]
    rfl
  · rw [hv3]
    simp only [hna]
    rfl

/-- Witness for C2 at a concrete key, token and store. -/
theorem C2_authorize_then_revoke_witness :
    require_admin "tk" (some "tk") = true ∧
    findRow "c2" "d2" [⟨"c2", "d2", none, none, none, none, "PENDING", 0, 0⟩] =
      some ⟨"c2", "d2", none, none, none, none, "PENDING", 0, 0⟩ ∧
    (api_check { company_key := "c2", device_id := "d2" } 2
      (admin_authorize "tk" (some "tk") ⟨"c2", "d2"⟩ 1
        [⟨"c2", "d2", none, none, none, none, "PENDING", 0, 0⟩]).2).1.authorized = true ∧
    (api_check { company_key := "c2", device_id := "d2" } 4
      (admin_revoke "tk" (some "tk") ⟨"c2", "d2"⟩ 3
        (api_check { company_key := "c2", device_id := "d2" } 2
          (admin_authorize "tk" (some "tk") ⟨"c2", "d2"⟩ 1
            [⟨"c2", "d2", none, none, none, none, "PENDING", 0, 0⟩]).2).2).2).1.authorized =
      false ∧
    (api_check { company_key := "c2", device_id := "d2" } 4
      (admin_revoke "tk" (some "tk") ⟨"c2", "d2"⟩ 3
        (api_check { company_key := "c2", device_id := "d2" } 2
          (admin_authorize "tk" (some "tk") ⟨"c2", "d2"⟩ 1
            [⟨"c2", "d2", none, none, none, none, "PENDING", 0, 0⟩]).2).2).2).1.status =
      some "REVOKED" :=
  ⟨by decide, by decide,
   (C2_authorize_then_revoke "tk" (some "tk") { company_key := "c2", device_id := "d2" }
      1 2 3 4 [⟨"c2", "d2", none, none, none, none, "PENDING", 0, 0⟩]
      ⟨"c2", "d2", none, none, none, none, "PENDING", 0, 0⟩
      (by decide) (by decide)).2.1,
   (C2_authorize_then_revoke "tk" (some "tk") { company_key := "c2", device_id := "d2" }
      1 2 3 4 [⟨"c2", "d2", none, none, none, none, "PENDING", 0, 0⟩]
      ⟨"c2", "d2", none, none, none, none, "PENDING", 0, 0⟩
      (by decide) (by decide)).2.2.2.1,
   (C2_authorize_then_revoke "tk" (some "tk") { company_key := "c2", device_id := "d2" }
      1 2 3 4 [⟨"c2", "d2", none, none, none, none, "PENDING", 0, 0⟩]
      ⟨"c2", "d2", none, none, none, none, "PENDING", 0, 0⟩
      (by decide) (by decide)).2.2.2.2⟩

/-- C6: with a valid admin token, authorize and revoke on a key with no
device row answer 404 Not Found, leave the store untouched, and in
particular create no row for that key. -/
theorem C6_admin_mutation_not_found (cfg : String) (tok : Option String)
    (a : AdminDeviceAction) (now : Nat) (store : Store)
    (hadm : require_admin cfg tok = true)
    (h : findRow a.company_key a.device_id store = none) :
    admin_authorize cfg tok a now store = (.error .notFound, store) ∧
    admin_revoke cfg tok a now store = (.error .notFound, store) ∧
    HTTPError.code .notFound = 404 ∧
    findRow a.company_key a.device_id (admin_authorize cfg tok a now store).2 = none ∧
    findRow a.company_key a.device_id (admin_revoke cfg tok a now store).2 = none := by
  have hc : countKey a.company_key a.device_id store = 0 :=
    (findRow_eq_none_iff_countKey _ _ _).mp h
  have h1 : admin_authorize cfg tok a now store = (.error .notFound, store) := by
    simp [admin_authorize, admin_set_status, hadm, hc]
  have h2 : admin_revoke cfg tok a now store = (.error .notFound, store) := by
    simp [admin_revoke, admin_set_status, hadm, hc]
  refine ⟨h1, h2, rfl, ?_, ?_⟩
  · rw [h1]
    exact h
  · rw [h2]
    exact h

/-- Witness for C6 on an empty store. -/
theorem C6_admin_mutation_not_found_witness :
    require_admin "tk" (some "tk") = true ∧
    findRow "nx" "ny" ([] : Store) = none ∧
    (admin_authorize "tk" (some "tk") ⟨"nx", "ny"⟩ 5 [] = (.error .notFound, []) ∧
     admin_revoke "tk" (some "tk") ⟨"nx", "ny"⟩ 5 [] = (.error .notFound, []) ∧
     HTTPError.code .notFound = 404 ∧
     findRow "nx" "ny" (admin_authorize "tk" (some "tk") ⟨"nx", "ny"⟩ 5 []).2 = none ∧
     findRow "nx" "ny" (admin_revoke "tk" (some "tk") ⟨"nx", "ny"⟩ 5 []).2 = none) :=
  ⟨by decide, rfl,
   C6_admin_mutation_not_found "tk" (some "tk") ⟨"nx", "ny"⟩ 5 [] (by decide) rfl⟩

/-- C8: whenever the X-Admin-Token header is absent or differs from the
configured ADMIN_TOKEN — in particular always when the configured token is
empty, even for a request presenting an empty token — every admin endpoint
answers 401 Unauthorized and the store is untouched, whatever the request
body holds. -/
theorem C8_admin_fail_closed (cfg : String) (tok : Option String)
    (a : AdminDeviceAction) (ck : String) (now : Nat) (store : Store)
    (hrej : cfg = "" ∨ tok ≠ some cfg) :
    require_admin cfg tok = false ∧
    admin_authorize cfg tok a now store = (.error .unauthorized, store) ∧
    admin_revoke cfg tok a now store = (.error .unauthorized, store) ∧
    admin_list_devices cfg tok ck store = .error .unauthorized ∧
    HTTPError.code .unauthorized = 401 := by
  have hr : require_admin cfg tok = false := by
    simp only [require_admin, Bool.not_eq_false', Bool.or_eq_true, beq_iff_eq,
      bne_iff_ne]
    exact hrej
  exact ⟨hr, by simp [admin_authorize, admin_set_status, hr],
         by simp [admin_revoke, admin_set_status, hr],
         by simp [admin_list_devices, hr], rfl⟩

/-- Witness for C8 at the fail-closed corner: empty configured token and an
empty presented token, on a store holding a row the request names. -/
theorem C8_admin_fail_closed_witness :
    (("" : String) = "" ∨ (some "" : Option String) ≠ some "") ∧
    (require_admin "" (some "") = false ∧
     admin_authorize "" (some "") ⟨"c8", "d8"⟩ 5
        [⟨"c8", "d8", none, none, none, none, "PENDING", 0, 0⟩] =
       (.error .unauthorized, [⟨"c8", "d8", none, none, none, none, "PENDING", 0, 0⟩]) ∧
     admin_revoke "" (some "") ⟨"c8", "d8"⟩ 5
        [⟨"c8", "d8", none, none, none, none, "PENDING", 0, 0⟩] =
       (.error .unauthorized, [⟨"c8", "d8", none, none, none, none, "PENDING", 0, 0⟩]) ∧
     admin_list_devices "" (some "") "c8"
        [⟨"c8", "d8", none, none, none, none, "PENDING", 0, 0⟩] = .error .unauthorized ∧
     HTTPError.code .unauthorized = 401) :=
  ⟨Or.inl rfl,
   C8_admin_fail_closed "" (some "") ⟨"c8", "d8"⟩ "c8" 5
     [⟨"c8", "d8", none, none, none, none, "PENDING", 0, 0⟩] (Or.inl rfl)⟩

/-- C9: with a valid admin token, listing devices answers the rows whose
company_key matches — all of them, ordered by updated_at descending — and
an unknown company yields the empty list, not an error. -/
theorem C9_list_devices_sorted (cfg : String) (tok : Option String)
    (ck : String) (store : Store)
    (hadm : require_admin cfg tok = true) :
    admin_list_devices cfg tok ck store =
      .ok (sortByUpdatedDesc (store.filter (fun r => r.company_key == ck))) ∧
    (sortByUpdatedDesc (store.filter (fun r => r.company_key == ck))).Perm
      (store.filter (fun r => r.company_key == ck)) ∧
    (sortByUpdatedDesc (store.filter (fun r => r.company_key == ck))).Pairwise
      descUpdated ∧
    (store.filter (fun r => r.company_key == ck) = [] →
      admin_list_devices cfg tok ck store = .ok []) := by
  have h1 : admin_list_devices cfg tok ck store =
      .ok (sortByUpdatedDesc (store.filter (fun r => r.company_key == ck))) := by
    simp [admin_list_devices, hadm]
  refine ⟨h1, sortByUpdatedDesc_perm _, sortByUpdatedDesc_pairwise _, ?_⟩
  intro hnil
  rw [h1, hnil]
  rfl

/-- Witness for C9: two rows of one company listed most-recent first, a row
of another company excluded. -/
theorem C9_list_devices_sorted_witness :
    require_admin "tk" (some "tk") = true ∧
    (admin_list_devices "tk" (some "tk") "A"
        [⟨"A", "d1", none, none, none, none, "PENDING", 1, 1⟩,
         ⟨"B", "e1", none, none, none, none, "PENDING", 9, 9⟩,
         ⟨"A", "d2", none, none, none, none, "PENDING", 5, 5⟩] =
      .ok (sortByUpdatedDesc
        ([⟨"A", "d1", none, none, none, none, "PENDING", 1, 1⟩,
          ⟨"B", "e1", none, none, none, none, "PENDING", 9, 9⟩,
          ⟨"A", "d2", none, none, none, none, "PENDING", 5, 5⟩].filter
            (fun r => r.company_key == "A"))) ∧
     (sortByUpdatedDesc
        ([⟨"A", "d1", none, none, none, none, "PENDING", 1, 1⟩,
          ⟨"B", "e1", none, none, none, none, "PENDING", 9, 9⟩,
          ⟨"A", "d2", none, none, none, none, "PENDING", 5, 5⟩].filter
            (fun r => r.company_key == "A"))).Perm
       (([⟨"A", "d1", none, none, none, none, "PENDING", 1, 1⟩,
          ⟨"B", "e1", none, none, none, none, "PENDING", 9, 9⟩,
          ⟨"A", "d2", none, none, none, none, "PENDING", 5, 5⟩] : Store).filter
           (fun r => r.company_key == "A")) ∧
     (sortByUpdatedDesc
        ([⟨"A", "d1", none, none, none, none, "PENDING", 1, 1⟩,
          ⟨"B", "e1", none, none, none, none, "PENDING", 9, 9⟩,
          ⟨"A", "d2", none, none, none, none, "PENDING", 5, 5⟩].filter
            (fun r => r.company_key == "A"))).Pairwise descUpdated ∧
     ((([⟨"A", "d1", none, none, none, none, "PENDING", 1, 1⟩,
         ⟨"B", "e1", none, none, none, none, "PENDING", 9, 9⟩,
         ⟨"A", "d2", none, none, none, none, "PENDING", 5, 5⟩] : Store).filter
          (fun r => r.company_key == "A")) = [] →
       admin_list_devices "tk" (some "tk") "A"
         [⟨"A", "d1", none, none, none, none, "PENDING", 1, 1⟩,
          ⟨"B", "e1", none, none, none, none, "PENDING", 9, 9⟩,
          ⟨"A", "d2", none, none, none, none, "PENDING", 5, 5⟩] = .ok [])) :=
  ⟨by decide,
   C9_list_devices_sorted "tk" (some "tk") "A"
     [⟨"A", "d1", none, none, none, none, "PENDING", 1, 1⟩,
      ⟨"B", "e1", none, none, none, none, "PENDING", 9, 9⟩,
      ⟨"A", "d2", none, none, none, none, "PENDING", 5, 5⟩] (by decide)⟩

/-- One check-in leaves exactly one row with the payload's key whenever the
store held at most one before (the primary-key invariant). -/
theorem countKey_api_check (p : CheckPayload) (now : Nat) (store : Store)
    (hle : countKey p.company_key p.device_id store ≤ 1) :
    countKey p.company_key p.device_id (api_check p now store).2 = 1 := by
  cases hfind : findRow p.company_key p.device_id store with
  | none =>
      have h2 : (api_check p now store).2 = insertOrReplace (freshRow p now) store := by
        simp [api_check, hfind]
      rw [h2]
      exact countKey_insertOrReplace (freshRow p now) store
  | some r =>
      rw [api_check_store_of_found p now store r hfind,
        countKey_map_cond p.company_key p.device_id (mergeRow p now)
          (mergeRow_keyMatches p.company_key p.device_id p now) store]
      have hne := countKey_ne_zero_of_findRow _ _ _ _ hfind
      omega

/-- Once exactly one row with the key exists, any further run of check-ins
with that key keeps it at exactly one. -/
theorem runChecks_keeps_one (ck di : String) :
    ∀ (qs : List (CheckPayload × Nat)) (store : Store),
      (∀ q ∈ qs, q.1.company_key = ck ∧ q.1.device_id = di) →
      countKey ck di store = 1 → countKey ck di (runChecks qs store) = 1
  | [], _, _, h1 => h1
  | q :: rest, store, hk, h1 => by
      have hq := hk q (List.mem_cons_self q rest)
      have h2 : countKey ck di (api_check q.1 q.2 store).2 = 1 := by
        rw [← hq.1, ← hq.2] at h1 ⊢
        exact countKey_api_check q.1 q.2 store (by omega)
      exact runChecks_keeps_one ck di rest _
        (fun x hx => hk x (List.mem_cons_of_mem q hx)) h2

/-- C7: starting from a store obeying the primary-key invariant for a key
(at most one row), any nonempty sequence of check-ins with that key leaves
exactly one row with the key — get-or-create never duplicates. -/
theorem C7_checkins_never_duplicate (ck di : String)
    (qs : List (CheckPayload × Nat)) (store : Store)
    (hk : ∀ q ∈ qs, q.1.company_key = ck ∧ q.1.device_id = di)
    (hinv : countKey ck di store ≤ 1) (hne : qs ≠ []) :
    countKey ck di (runChecks qs store) = 1 := by
  cases qs with
  | nil => exact absurd rfl hne
  | cons q rest =>
      have hq := hk q (List.mem_cons_self q rest)
      have h2 : countKey ck di (api_check q.1 q.2 store).2 = 1 := by
        rw [← hq.1, ← hq.2] at hinv ⊢
        exact countKey_api_check q.1 q.2 store hinv
      exact runChecks_keeps_one ck di rest _
        (fun x hx => hk x (List.mem_cons_of_mem q hx)) h2

/-- Witness for C7: three repeated check-ins for the same key from an empty
store leave one row. -/
theorem C7_checkins_never_duplicate_witness :
    (∀ q ∈ [(({ company_key := "c7", device_id := "d7" } : CheckPayload), 1),
            ({ company_key := "c7", device_id := "d7", hostname := some "h" }, 2),
            ({ company_key := "c7", device_id := "d7" }, 3)],
        q.1.company_key = "c7" ∧ q.1.device_id = "d7") ∧
    countKey "c7" "d7" ([] : Store) ≤ 1 ∧
    countKey "c7" "d7"
      (runChecks
        [({ company_key := "c7", device_id := "d7" }, 1),
         ({ company_key := "c7", device_id := "d7", hostname := some "h" }, 2),
         ({ company_key := "c7", device_id := "d7" }, 3)] []) = 1 :=
  ⟨by decide, by decide,
   C7_checkins_never_duplicate "c7" "d7"
     [({ company_key := "c7", device_id := "d7" }, 1),
      ({ company_key := "c7", device_id := "d7", hostname := some "h" }, 2),
      ({ company_key := "c7", device_id := "d7" }, 3)] []
     (by decide) (by decide) (by decide)⟩

/-- C5 counterexample: a check-in whose company_key and device_id are the
empty string — empty after any trimming — is not rejected by validation:
pydantic accepts both fields, the endpoint answers PENDING, and a device
row keyed by empty strings is created. -/
theorem C5_counterexample_empty_key_accepted :
    parseCheckPayload
      { company_key := some "", device_id := some "" } =
      .ok { company_key := "", device_id := "" } ∧
    (api_check { company_key := "", device_id := "" } 5 []).1.status =
      some "PENDING" ∧
    countKey "" "" (api_check { company_key := "", device_id := "" } 5 []).2 = 1 := by
  refine ⟨rfl, rfl, ?_⟩
  decide

/-- C5 (amended): validation of a check-in request fails exactly when
company_key or device_id is absent from the body; present values — the
empty string included — are accepted verbatim, with no trimming and no
emptiness check, and the check-in then proceeds normally. -/
theorem C5_validation_is_presence_only (b : RawCheckBody) :
    (parseCheckPayload b).isOk = (b.company_key.isSome && b.device_id.isSome) := by
  cases hck : b.company_key <;> cases hdi : b.device_id <;>
    simp [parseCheckPayload, hck, hdi, Except.isOk, Except.toBool]

end LmServer
